import Mathlib

/-!
Shallow embedding of `passport-instagram-token` (strategy adapters for
passport): the ESM Instagram strategy (`src/index.js`), the legacy CommonJS
Instagram strategy (`lib/Strategy.js`) and the Apple OIDC token strategy
variant shipped in the same repository.  JavaScript values that can be
`undefined` are modelled as `Option`; JSON values as the `Json` inductive;
the builtins `JSON.parse` and `jwt.verify` (library collaborators, not code
of this repository) are passed in as explicit function arguments.
-/

namespace PIT

/-- JSON values as produced by `JSON.parse`: null, booleans, numbers
(integers suffice for every field this adapter touches), strings, arrays
and objects (field order preserved, as in JavaScript). -/
inductive Json where
  | null : Json
  | bool (b : Bool) : Json
  | num (n : Int) : Json
  | str (s : String) : Json
  | arr (xs : List Json) : Json
  | obj (fields : List (String × Json)) : Json
  /-- The JavaScript value `undefined`, as storable by a property write
  (`JSON.parse` never produces it). -/
  | undef : Json

namespace Json

/-- JavaScript property read `v[k]`: `none` models `undefined` (missing key
or a non-object receiver; prototype chains are out of scope here). -/
def get : Json → String → Option Json
  | obj fields, k => fields.lookup k
  | _, _ => none

/-- JavaScript property write `v[k] = x` on an object: replaces the value of
an existing key in place, appends otherwise; a primitive receiver ignores
the write (non-strict mode). -/
def setField : Json → String → Json → Json
  | obj fields, k, x =>
      if (fields.lookup k).isSome
      then obj (fields.map (fun p => if p.1 = k then (p.1, x) else p))
      else obj (fields ++ [(k, x)])
  | v, _, _ => v

/-- JavaScript truthiness of a defined value. -/
def truthy : Json → Bool
  | null => false
  | undef => false
  | bool b => b
  | num n => n != 0
  | str s => s != ""
  | arr _ => true
  | obj _ => true

end Json

/-- Truthiness of a possibly-`undefined` value (`none` = `undefined`). -/
def jsTruthy : Option Json → Bool
  | none => false
  | some v => v.truthy

/-- Truthiness of a possibly-`undefined` string (`none` = `undefined`,
`some ""` is falsy). -/
def strTruthy : Option String → Bool
  | none => false
  | some s => s != ""

/-- JavaScript `a || b` on possibly-`undefined` strings: yields `a` when `a`
is truthy, `b` otherwise. -/
def strOr (a b : Option String) : Option String :=
  if strTruthy a then a else b

/-- JavaScript `a || d` where `d` is a present default (the `x || 'dflt'`
idiom of the constructors). -/
def strOrDefault (a : Option String) (d : String) : String :=
  if strTruthy a then a.getD d else d

/-- JavaScript `a || d` on a defined default JSON value (the
`json.data.full_name || ''` idiom of the normalizer). -/
def jsonOrDefault (a : Option Json) (d : Json) : Json :=
  if jsTruthy a then a.getD d else d

/-- An inbound request: `body`, `query` and `headers` are maps of
string-valued fields, each possibly absent (`undefined`) as a whole.
Field order models JS object insertion order; `lookup` finds the value. -/
structure Request where
  body : Option (List (String × String)) := none
  query : Option (List (String × String)) := none
  headers : Option (List (String × String)) := none

/-- The JavaScript expression `(m && m[field])`: `undefined` when the map is
absent, the property read otherwise. -/
def mapGet (m : Option (List (String × String))) (field : String) : Option String :=
  m.bind (fun l => l.lookup field)

/-- Errors surfaced by the adapters.  `jwtCause` is opaque to this code: it
is whatever error the `jsonwebtoken` collaborator reported. -/
inductive JwtError where
  | badSignature
  | audienceMismatch
  | issuerMismatch
  | wrongAlgorithm
  | expired
  | other (msg : String)
deriving DecidableEq

/-- A transport-level error from `this._oauth2.get`, as consumed by
`userProfile`: carries an optional `data` payload (the provider error body). -/
structure TransportError where
  data : Option String := none

inductive JsError where
  /-- The `SyntaxError` thrown by `JSON.parse`. -/
  | syntaxError
  /-- A `TypeError` from reading a property of `undefined`/`null`
  (`json.data.id` when `json.data` is missing). -/
  | typeError
  /-- Models `InternalOAuthError(errorJSON.meta.error_message, errorJSON.meta.code)`. -/
  | oauthMeta (message : Option Json) (code : Option Json)
  /-- Models `InternalOAuthError('Failed to fetch user profile', error)`. -/
  | oauthFetchFailed (cause : TransportError)
  /-- Models `InternalOAuthError('Failed to validate identity token', err)`. -/
  | oauthJwtFailed (message : String) (cause : JwtError)
  /-- An error produced by the application `verify` callback. -/
  | appError (tag : String)

/-- The info object of a `fail` outcome.  The extractor fails with
`{message: ...}`; the verify callback may fail with an arbitrary value
(possibly `undefined`). -/
inductive FailInfo where
  | message (msg : String)
  | value (info : Option Json)

/-- Terminal outcome of one `authenticate` call: exactly one of
`this.error` / `this.fail` / `this.success`. -/
inductive Outcome where
  | error (e : JsError)
  | fail (info : FailInfo)
  | success (user : Json) (info : Option Json)

/-- The result the application `verify` callback hands to its completion
callback: `done(error, user, info)`, each argument possibly absent. -/
structure VerifyResult where
  error : Option JsError := none
  user : Option Json := none
  info : Option Json := none

/-- The `verified` completion callback shared verbatim by all three
strategies: an error produces `this.error`, a falsy user `this.fail(info)`,
a truthy user `this.success(user, info)`. -/
def verified (r : VerifyResult) : Outcome :=
  match r.error with
  | some e => .error e
  | none =>
      match r.user with
      | some u =>
          if u.truthy then .success u r.info else .fail (.value r.info)
      | none => .fail (.value r.info)

/-! ### crypto.createHmac('sha256', key).update(msg).digest('hex')

A concrete model of the Node `crypto` collaborator: SHA-256 (FIPS 180-4)
and HMAC (RFC 2104) over byte lists, bytes and 32-bit words as `Nat` with
explicit reduction modulo `2^32`.  Validated below against the signature
value recorded in this repository's own test suite. -/

namespace Sha256

/-- Addition modulo `2^32`. -/
def add32 (a b : Nat) : Nat := (a + b) % 4294967296

/-- Rotation of a 32-bit word right by `n`, reduced modulo `2^32`. -/
def rotr (n x : Nat) : Nat := ((x >>> n) ||| (x <<< (32 - n))) % 4294967296

def ch (x y z : Nat) : Nat := (x &&& y) ^^^ ((x ^^^ 4294967295) &&& z)

def maj (x y z : Nat) : Nat := (x &&& y) ^^^ (x &&& z) ^^^ (y &&& z)

def bigSigma0 (x : Nat) : Nat := rotr 2 x ^^^ rotr 13 x ^^^ rotr 22 x

def bigSigma1 (x : Nat) : Nat := rotr 6 x ^^^ rotr 11 x ^^^ rotr 25 x

def smallSigma0 (x : Nat) : Nat := rotr 7 x ^^^ rotr 18 x ^^^ (x >>> 3)

def smallSigma1 (x : Nat) : Nat := rotr 17 x ^^^ rotr 19 x ^^^ (x >>> 10)

/-- The 64 round constants of FIPS 180-4, written in decimal. -/
def K : List Nat :=
  [1116352408, 1899447441, 3049323471, 3921009573, 961987163,
   1508970993, 2453635748, 2870763221, 3624381080, 310598401,
   607225278, 1426881987, 1925078388, 2162078206, 2614888103,
   3248222580, 3835390401, 4022224774, 264347078, 604807628,
   770255983, 1249150122, 1555081692, 1996064986, 2554220882,
   2821834349, 2952996808, 3210313671, 3336571891, 3584528711,
   113926993, 338241895, 666307205, 773529912, 1294757372,
   1396182291, 1695183700, 1986661051, 2177026350, 2456956037,
   2730485921, 2820302411, 3259730800, 3345764771, 3516065817,
   3600352804, 4094571909, 275423344, 430227734, 506948616,
   659060556, 883997877, 958139571, 1322822218, 1537002063,
   1747873779, 1955562222, 2024104815, 2227730452, 2361852424,
   2428436474, 2756734187, 3204031479, 3329325298]

/-- The eight working registers. -/
structure Regs where
  a : Nat
  b : Nat
  c : Nat
  d : Nat
  e : Nat
  f : Nat
  g : Nat
  h : Nat

def initRegs : Regs :=
  { a := 0x6a09e667, b := 0xbb67ae85, c := 0x3c6ef372, d := 0xa54ff53a,
    e := 0x510e527f, f := 0x9b05688c, g := 0x1f83d9ab, h := 0x5be0cd19 }

/-- One compression round. -/
def round (k w : Nat) (r : Regs) : Regs :=
  let t1 := add32 (add32 (add32 (add32 r.h (bigSigma1 r.e)) (ch r.e r.f r.g)) k) w
  let t2 := add32 (bigSigma0 r.a) (maj r.a r.b r.c)
  { a := add32 t1 t2, b := r.a, c := r.b, d := r.c,
    e := add32 r.d t1, f := r.e, g := r.f, h := r.g }

/-- Big-endian 4-byte groups to 32-bit words. -/
def toWords : List Nat → List Nat
  | b0 :: b1 :: b2 :: b3 :: rest =>
      (b0 * 16777216 + b1 * 65536 + b2 * 256 + b3) :: toWords rest
  | _ => []

/-- Extend the 16 block words to the 64-entry message schedule. -/
def extendSchedule (w16 : Array Nat) : Array Nat :=
  (List.range 48).foldl
    (fun w _ =>
      let t := w.size
      w.push (add32 (add32 (smallSigma1 (w.getD (t - 2) 0)) (w.getD (t - 7) 0))
                    (add32 (smallSigma0 (w.getD (t - 15) 0)) (w.getD (t - 16) 0))))
    w16

def addRegs (x y : Regs) : Regs :=
  { a := add32 x.a y.a, b := add32 x.b y.b, c := add32 x.c y.c, d := add32 x.d y.d,
    e := add32 x.e y.e, f := add32 x.f y.f, g := add32 x.g y.g, h := add32 x.h y.h }

/-- Compress one 64-byte block into the running state. -/
def compressBlock (h : Regs) (block : List Nat) : Regs :=
  let ws := extendSchedule (toWords block).toArray
  let r := (K.zip ws.toList).foldl (fun r kw => round kw.1 kw.2 r) h
  addRegs h r

/-- Split into 64-byte blocks (fuel-indexed so the kernel can reduce it;
`l.length` fuel always suffices since every step drops 64 bytes). -/
def chunk64Go : Nat → List Nat → List (List Nat)
  | 0, _ => []
  | _, [] => []
  | fuel + 1, x :: rest =>
      let l := x :: rest
      l.take 64 :: chunk64Go fuel (l.drop 64)

/-- Split into 64-byte blocks. -/
def chunk64 (l : List Nat) : List (List Nat) := chunk64Go l.length l

/-- Merkle-Damgard padding: `0x80`, zeros to 56 mod 64, 8-byte big-endian
bit length. -/
def padMsg (msg : List Nat) : List Nat :=
  let len := msg.length
  let zeros := (119 - len % 64) % 64
  let bitLen := len * 8
  msg ++ 128 :: List.replicate zeros 0
      ++ (List.range 8).map (fun i => (bitLen >>> (8 * (7 - i))) % 256)

/-- A register as 4 big-endian bytes. -/
def wordBytes (w : Nat) : List Nat :=
  [(w >>> 24) % 256, (w >>> 16) % 256, (w >>> 8) % 256, w % 256]

def regsBytes (r : Regs) : List Nat :=
  wordBytes r.a ++ wordBytes r.b ++ wordBytes r.c ++ wordBytes r.d
    ++ wordBytes r.e ++ wordBytes r.f ++ wordBytes r.g ++ wordBytes r.h

/-- SHA-256 of a byte list. -/
def sha256 (msg : List Nat) : List Nat :=
  regsBytes ((chunk64 (padMsg msg)).foldl compressBlock initRegs)

end Sha256

/-- Lowercase hex digits, as produced by `digest('hex')`. -/
def hexDigits : List Char := "0123456789abcdef".data

/-- The two lowercase hex characters of a byte. -/
def byteHexChars (b : Nat) : List Char :=
  [hexDigits.getD (b / 16 % 16) '0', hexDigits.getD (b % 16) '0']

/-- Lowercase hex rendering of a byte list (`digest('hex')`). -/
def bytesToHex (bs : List Nat) : String :=
  String.mk (bs.flatMap byteHexChars)

/-- UTF-8 encoding of one code point. -/
def utf8EncodeChar (c : Char) : List Nat :=
  let n := c.toNat
  if n < 128 then [n]
  else if n < 2048 then [192 ||| (n >>> 6), 128 ||| (n &&& 63)]
  else if n < 65536 then
    [224 ||| (n >>> 12), 128 ||| ((n >>> 6) &&& 63), 128 ||| (n &&& 63)]
  else
    [240 ||| (n >>> 18), 128 ||| ((n >>> 12) &&& 63),
     128 ||| ((n >>> 6) &&& 63), 128 ||| (n &&& 63)]

/-- UTF-8 bytes of a string (the encoding `crypto` applies to string input). -/
def utf8Bytes (s : String) : List Nat := s.data.flatMap utf8EncodeChar

/-- HMAC-SHA256 (RFC 2104) over byte lists. -/
def hmacSha256 (key msg : List Nat) : List Nat :=
  let k0 := if 64 < key.length then Sha256.sha256 key else key
  let kpad := k0 ++ List.replicate (64 - k0.length) 0
  let ipad := kpad.map (fun b => b ^^^ 54)
  let opad := kpad.map (fun b => b ^^^ 92)
  Sha256.sha256 (opad ++ Sha256.sha256 (ipad ++ msg))

/-- Models `crypto.createHmac('sha256', key).update(msg).digest('hex')` on
string key and message. -/
def hmacSha256Hex (key msg : String) : String :=
  bytesToHex (hmacSha256 (utf8Bytes key) (utf8Bytes msg))

/-! ### encodeURIComponent -/

/-- Characters `encodeURIComponent` leaves unescaped. -/
def isUnreservedURI (c : Char) : Bool :=
  c.isAlphanum || c = '-' || c = '_' || c = '.' || c = '!' || c = '~'
    || c = '*' || c = '(' || c = ')' || c = '\x27'

/-- Uppercase hex digits used by percent escapes. -/
def hexDigitsUpper : List Char := "0123456789ABCDEF".data

/-- Percent escape `%XX` of one byte. -/
def percentEscape (b : Nat) : List Char :=
  ['%', hexDigitsUpper.getD (b / 16 % 16) '0', hexDigitsUpper.getD (b % 16) '0']

/-- Behaviour of `encodeURIComponent` on one character. -/
def encodeURIChar (c : Char) : List Char :=
  if isUnreservedURI c then [c] else ((utf8EncodeChar c).map percentEscape).flatten

/-- The `encodeURIComponent` builtin. -/
def encodeURIComponent (s : String) : String :=
  String.mk (s.data.flatMap encodeURIChar)

/-- Default profile endpoint of both Instagram variants. -/
def defaultProfileURL : String := "https://api.instagram.com/v1/users/self"

/-- The URL `userProfile` of `src/index.js` passes to `this._oauth2.get`:
with `enableProof`, the profile URL with a `sig` parameter holding the hex
HMAC-SHA256, keyed by the client secret, of
`/users/self|access_token=` followed by the access token. -/
def igRequestURL (enableProof : Bool) (profileURL clientSecret accessToken : String) : String :=
  if enableProof then
    let token := "/users/self|access_token=" ++ accessToken
    let proof := hmacSha256Hex clientSecret token
    profileURL ++ "?sig=" ++ encodeURIComponent proof
  else
    profileURL


/-! ### Profiles and the strategy pipelines -/

/-- One entry of a profile's `emails` list. -/
structure EmailEntry where
  value : Option Json

/-- One entry of a profile's `photos` list. -/
structure PhotoEntry where
  value : Option Json

/-- The `name` object of the Instagram profile (both variants always build
it, defaulting each part to the empty string). -/
structure IgName where
  familyName : Json
  givenName : Json

/-- The normalized Instagram profile (`userProfile` of `src/index.js` and
`lib/Strategy.js`; the two bodies are identical).  `rawBody` models `_raw`
and `parsedJson` models `_json` (names Lean-safe). -/
structure IgProfile where
  provider : String
  id : Option Json
  username : Option Json
  displayName : Json
  name : IgName
  emails : List EmailEntry
  photos : List PhotoEntry
  rawBody : String
  parsedJson : Json

/-- The profile object built in `userProfile`'s success branch, given the
parsed body `json` and its `data` member.  `json['id'] = json.data.id`
stores `undefined` when `data.id` is absent (`Json.undef`), and a
subsequent read of `json.id` yields exactly the assigned value. -/
def igBuildProfile (body : String) (json data : Json) : IgProfile :=
  { provider := "instagram"
    id := data.get "id"
    username := data.get "username"
    displayName := jsonOrDefault (data.get "full_name") (.str "")
    name := { familyName := jsonOrDefault (data.get "last_name") (.str "")
              givenName := jsonOrDefault (data.get "first_name") (.str "") }
    emails := []
    photos := [{ value := data.get "profile_picture" }]
    rawBody := body
    parsedJson := json.setField "id" ((data.get "id").getD .undef) }

/-- The success branch of `userProfile`'s `this._oauth2.get` callback:
`JSON.parse(body)` (a parse failure throws and reaches the `catch`), then
`json['id'] = json.data.id` (a `TypeError` when `json.data` is `undefined`
or `null`), then the profile literal. -/
def igHandleBody (jsonParse : String → Option Json) (body : String) :
    Except JsError IgProfile :=
  match jsonParse body with
  | none => .error .syntaxError
  | some json =>
      match json.get "data" with
      | none => .error .typeError
      | some .null => .error .typeError
      | some data => .ok (igBuildProfile body json data)

/-- The error branch of the `this._oauth2.get` callback: try to read
`JSON.parse(error.data).meta` (any throw inside the `try` — parse failure
or property read of `undefined`/`null` — lands in the generic wrap). -/
def igHandleTransportError (jsonParse : String → Option Json) (e : TransportError) :
    JsError :=
  match e.data.bind jsonParse with
  | none => .oauthFetchFailed e
  | some errorJSON =>
      match errorJSON.get "meta" with
      | none => .oauthFetchFailed e
      | some .null => .oauthFetchFailed e
      | some meta => .oauthMeta (meta.get "error_message") (meta.get "code")

/-- What `this._oauth2.get` hands its callback: a truthy `error`, or a body. -/
inductive TransportResult where
  | err (e : TransportError)
  | ok (body : String)

/-- The whole `this._oauth2.get` callback of the Instagram `userProfile`. -/
def igUserProfile (jsonParse : String → Option Json) (t : TransportResult) :
    Except JsError IgProfile :=
  match t with
  | .err e => .error (igHandleTransportError jsonParse e)
  | .ok body => igHandleBody jsonParse body

/-- Instance configuration of the ESM strategy, as read off `options` by the
constructor of `src/index.js`. -/
structure IgConfig where
  accessTokenField : String := "access_token"
  refreshTokenField : String := "refresh_token"
  profileURL : String := defaultProfileURL
  enableProof : Bool := true
  passReqToCallback : Bool := false

/-- The arguments `authenticate` hands the application `verify` callback
(`req` present exactly when `passReqToCallback` is set). -/
structure VerifyArgs (P : Type) where
  req : Option Request
  accessToken : Option String
  refreshToken : Option String
  profile : P

/-- Function `authenticate` of `src/index.js`.  `loadUserProfile` stands for
`this._loadUserProfile` (base-class plumbing that completes with either an
error or a profile); `verify` for the application callback, returning the
triple it hands `done`.  The second component records the arguments `verify`
was invoked with (`none`: the callback never ran). -/
def igAuthenticate (cfg : IgConfig) (req : Request)
    (loadUserProfile : Option String → Except JsError IgProfile)
    (verify : VerifyArgs IgProfile → VerifyResult) :
    Outcome × Option (VerifyArgs IgProfile) :=
  let accessToken :=
    strOr (mapGet req.body cfg.accessTokenField) (mapGet req.query cfg.accessTokenField)
  let refreshToken :=
    strOr (mapGet req.body cfg.refreshTokenField) (mapGet req.query cfg.refreshTokenField)
  if strTruthy accessToken = false then
    (.fail (.message ("You should provide " ++ cfg.accessTokenField)), none)
  else
    match loadUserProfile accessToken with
    | .error e => (.error e, none)
    | .ok profile =>
        let args : VerifyArgs IgProfile :=
          { req := if cfg.passReqToCallback then some req else none
            accessToken := accessToken
            refreshToken := refreshToken
            profile := profile }
        (verified (verify args), some args)

/-- Function `authenticate` of `lib/Strategy.js`: field names are the literals
`access_token` / `refresh_token`, and extraction also consults
`req.headers` after body and query. -/
def legacyAuthenticate (passReqToCallback : Bool) (req : Request)
    (loadUserProfile : Option String → Except JsError IgProfile)
    (verify : VerifyArgs IgProfile → VerifyResult) :
    Outcome × Option (VerifyArgs IgProfile) :=
  let accessToken :=
    strOr (strOr (mapGet req.body "access_token") (mapGet req.query "access_token"))
      (mapGet req.headers "access_token")
  let refreshToken :=
    strOr (strOr (mapGet req.body "refresh_token") (mapGet req.query "refresh_token"))
      (mapGet req.headers "refresh_token")
  if strTruthy accessToken = false then
    (.fail (.message "You should provide access_token"), none)
  else
    match loadUserProfile accessToken with
    | .error e => (.error e, none)
    | .ok profile =>
        let args : VerifyArgs IgProfile :=
          { req := if passReqToCallback then some req else none
            accessToken := accessToken
            refreshToken := refreshToken
            profile := profile }
        (verified (verify args), some args)

/-! ### The Apple OIDC variant (`src/unnamed/part_001`) -/

/-- Instance configuration of the Apple strategy. -/
structure AppleConfig where
  clientID : String
  identityTokenField : String := "id_token"
  passReqToCallback : Bool := false

/-- The options object handed to `jwt.verify`. -/
structure VerifyOpts where
  audience : String
  issuer : String
  algorithms : List String
deriving DecidableEq

/-- The `verifyOpts` object as built inside `userProfile`. -/
def appleVerifyOpts (cfg : AppleConfig) : VerifyOpts :=
  { audience := cfg.clientID
    issuer := "https://appleid.apple.com"
    algorithms := ["RS256"] }

/-- The `user` value after `authenticate`'s defensive parse: absent, still
the raw string (parse failed and the exception was swallowed), or the
parsed JSON. -/
inductive UserData where
  | absent
  | rawStr (s : String)
  | parsed (j : Json)

/-- JS property read `user.k`: a string primitive has no such properties;
`undefined` reads give `undefined`. -/
def UserData.getProp : UserData → String → Option Json
  | .absent, _ => none
  | .rawStr _, _ => none
  | .parsed j, k => j.get k

/-- Truthiness of the `user` value. -/
def UserData.isTruthy : UserData → Bool
  | .absent => false
  | .rawStr s => s != ""
  | .parsed j => j.truthy

/-- The `name` object attached to an Apple profile: each part is set only
when the corresponding user field is truthy. -/
structure AppleName where
  familyName : Option Json := none
  givenName : Option Json := none

/-- The normalized Apple profile.  `name = none` models the `name` property
being absent altogether.  `rawClaims` models `_raw = JSON.stringify(jwtClaims)`
through the abstract `stringify` collaborator; `parsedJson` models `_json`. -/
structure AppleProfile where
  provider : String
  id : Option Json
  emails : List EmailEntry
  emailVerified : Bool
  isPrivateEmail : Bool
  rawClaims : String
  parsedJson : Json
  name : Option AppleName := none

/-- Strict equality `v === 'true'` of a possibly-`undefined` value with the
string literal: true only for the string `"true"`, never for the boolean. -/
def jsEqStrTrue : Option Json → Bool
  | some (.str s) => s == "true"
  | _ => false

/-- The profile literal built in `userProfile` once `jwt.verify` succeeded,
plus the conditional `name` attachment.  `stringify` models the
`JSON.stringify` builtin. -/
def appleBuildProfile (stringify : Json → String) (jwtClaims : Json)
    (user : UserData) : AppleProfile :=
  let base : AppleProfile :=
    { provider := "apple"
      id := jwtClaims.get "sub"
      emails := [{ value := jwtClaims.get "email" }]
      emailVerified := jsEqStrTrue (jwtClaims.get "email_verified")
      isPrivateEmail := jsEqStrTrue (jwtClaims.get "is_private_email")
      rawClaims := stringify jwtClaims
      parsedJson := jwtClaims }
  if user.isTruthy
      && (jsTruthy (user.getProp "lastName") || jsTruthy (user.getProp "firstName")) then
    { base with
        name := some
          { familyName :=
              if jsTruthy (user.getProp "lastName") then user.getProp "lastName" else none
            givenName :=
              if jsTruthy (user.getProp "firstName") then user.getProp "firstName" else none } }
  else
    base

/-- Function `userProfile` of the Apple strategy: `jwt.verify` (the `jsonwebtoken`
collaborator, abstract here) is called with the identity token and the
audience/issuer/algorithms options; its failure is wrapped in
`InternalOAuthError('Failed to validate identity token', err)`. -/
def appleUserProfile (cfg : AppleConfig) (stringify : Json → String)
    (jwtVerify : Option String → VerifyOpts → Except JwtError Json)
    (identityToken : Option String) (user : UserData) :
    Except JsError AppleProfile :=
  match jwtVerify identityToken (appleVerifyOpts cfg) with
  | .error err => .error (.oauthJwtFailed "Failed to validate identity token" err)
  | .ok jwtClaims => .ok (appleBuildProfile stringify jwtClaims user)

/-- The tail of the Apple `authenticate` after the token and `user` values
are in hand: the missing-token fast fail, `this._loadUserProfile` (which on
its default path runs `userProfile`), and the dispatch to `verify`. -/
def appleAuthenticateCore (cfg : AppleConfig) (req : Request)
    (stringify : Json → String)
    (jwtVerify : Option String → VerifyOpts → Except JwtError Json)
    (verify : VerifyArgs AppleProfile → VerifyResult)
    (identityToken : Option String) (user : UserData) :
    Outcome × Option (VerifyArgs AppleProfile) :=
  if strTruthy identityToken = false then
    (.fail (.message ("You should provide " ++ cfg.identityTokenField)), none)
  else
    match appleUserProfile cfg stringify jwtVerify identityToken user with
    | .error e => (.error e, none)
    | .ok profile =>
        let args : VerifyArgs AppleProfile :=
          { req := if cfg.passReqToCallback then some req else none
            accessToken := none
            refreshToken := none
            profile := profile }
        (verified (verify args), some args)

/-- The `user` value `authenticate` computes: read from
`req.body.user || req.query.user`, then parsed defensively — a throwing
`JSON.parse` is swallowed and `user` keeps its raw string value. -/
def appleUserData (jsonParse : String → Option Json) (req : Request) : UserData :=
  match strOr (mapGet req.body "user") (mapGet req.query "user") with
  | none => .absent
  | some s =>
      match jsonParse s with
      | some j => .parsed j
      | none => .rawStr s

/-- Function `authenticate` of the Apple strategy. -/
def appleAuthenticate (cfg : AppleConfig) (req : Request)
    (jsonParse : String → Option Json) (stringify : Json → String)
    (jwtVerify : Option String → VerifyOpts → Except JwtError Json)
    (verify : VerifyArgs AppleProfile → VerifyResult) :
    Outcome × Option (VerifyArgs AppleProfile) :=
  appleAuthenticateCore cfg req stringify jwtVerify verify
    (strOr (mapGet req.body cfg.identityTokenField) (mapGet req.query cfg.identityTokenField))
    (appleUserData jsonParse req)


/-! ### The constructors' mutation of the caller's options object -/

/-- The caller-supplied `options` object, with the fields the constructors
touch or read made explicit and every other property collected in `others`. -/
structure JsOptions where
  authorizationURL : Option String := none
  tokenURL : Option String := none
  profileURL : Option String := none
  clientID : Option String := none
  clientSecret : Option String := none
  accessTokenField : Option String := none
  refreshTokenField : Option String := none
  identityTokenField : Option String := none
  enableProof : Option Json := none
  passReqToCallback : Option Json := none
  others : List (String × Json) := []

/-- The in-place writes of the `src/index.js` constructor:
`options.authorizationURL = options.authorizationURL || <default>` and the
same for `tokenURL`. -/
def igApplyDefaults (o : JsOptions) : JsOptions :=
  { o with
      authorizationURL :=
        some (strOrDefault o.authorizationURL "https://api.instagram.com/oauth/authorize/")
      tokenURL :=
        some (strOrDefault o.tokenURL "https://api.instagram.com/oauth/access_token") }

/-- The in-place writes of the `lib/Strategy.js` constructor, which also
defaults `profileURL`. -/
def legacyApplyDefaults (o : JsOptions) : JsOptions :=
  { o with
      authorizationURL :=
        some (strOrDefault o.authorizationURL "https://api.instagram.com/oauth/authorize/")
      tokenURL :=
        some (strOrDefault o.tokenURL "https://api.instagram.com/oauth/access_token")
      profileURL := some (strOrDefault o.profileURL defaultProfileURL) }

/-- The URL `userProfile` of `lib/Strategy.js` passes to `this._oauth2.get`:
always the stored profile URL (the caller-supplied `options.profileURL` after
the constructor's defaulting).  The legacy variant has no `enableProof`
handling at all — its constructor stores neither `enableProof` nor
`clientSecret`, and `userProfile` never appends a `sig` parameter.  The
access token is received but does not enter the URL. -/
def legacyRequestURL (options : JsOptions) (_accessToken : String) : String :=
  strOrDefault options.profileURL defaultProfileURL

/-! ### Helper lemmas -/

set_option maxRecDepth 100000

theorem strTruthy_strOr (a b : Option String) :
    strTruthy (strOr a b) = (strTruthy a || strTruthy b) := by
  by_cases h : strTruthy a = true
  · simp [strOr, h]
  · rw [Bool.not_eq_true] at h
    simp [strOr, h]

theorem hexDigits_getD_mem : ∀ m, m < 16 → hexDigits.getD m '0' ∈ hexDigits := by
  decide

theorem isUnreservedURI_of_mem_hexDigits : ∀ c ∈ hexDigits, isUnreservedURI c = true := by
  decide

theorem mem_hexDigits_of_mem_byteHexChars {c : Char} {b : Nat}
    (h : c ∈ byteHexChars b) : c ∈ hexDigits := by
  simp only [byteHexChars, List.mem_cons, List.mem_singleton, List.not_mem_nil,
    or_false] at h
  rcases h with h | h
  · exact h ▸ hexDigits_getD_mem _ (Nat.mod_lt _ (by norm_num))
  · exact h ▸ hexDigits_getD_mem _ (Nat.mod_lt _ (by norm_num))

theorem encodeURIChar_unreserved {c : Char} (h : isUnreservedURI c = true) :
    encodeURIChar c = [c] := by
  simp [encodeURIChar, h]

theorem flatMap_encodeURIChar_eq_self {l : List Char}
    (h : ∀ c ∈ l, encodeURIChar c = [c]) : l.flatMap encodeURIChar = l := by
  induction l with
  | nil => rfl
  | cons c cs ih =>
      rw [List.flatMap_cons, h c (by simp), ih (fun x hx => h x (by simp [hx]))]
      rfl

/-- Applying `encodeURIComponent` to a lowercase hex digest is the identity, so the
`sig` value placed in the URL is literally the hex HMAC digest. -/
theorem encodeURIComponent_bytesToHex (bs : List Nat) :
    encodeURIComponent (bytesToHex bs) = bytesToHex bs := by
  show String.mk ((bs.flatMap byteHexChars).flatMap encodeURIChar)
    = String.mk (bs.flatMap byteHexChars)
  congr 1
  refine flatMap_encodeURIChar_eq_self (fun c hc => ?_)
  refine encodeURIChar_unreserved (isUnreservedURI_of_mem_hexDigits c ?_)
  simp only [List.mem_flatMap] at hc
  obtain ⟨b, _, hb⟩ := hc
  exact mem_hexDigits_of_mem_byteHexChars hb

/-- The embedded HMAC reproduces the exact signature URL recorded in this
repository's test suite (`clientSecret = '123'`, token `'accessToken'`). -/
theorem igRequestURL_matches_test_vector :
    igRequestURL true defaultProfileURL "123" "accessToken"
      = "https://api.instagram.com/v1/users/self?sig=7393bd6533bae39c66e720280eeb57298cfd3b7649ff63eaa76d02da70ad8d45" := by
  rfl

/-! ### Claims -/

/-- Counterexample to claim C3: the legacy variant requests the bare
profile URL, with no `sig` parameter, even for an options object carrying
`enableProof: true` and a client secret (the very inputs of the repository
test vector). -/
theorem C3_counterexample :
    legacyRequestURL { enableProof := some (.bool true), clientSecret := some "123" }
        "accessToken"
      = defaultProfileURL
    ∧ ¬ List.IsInfix "sig=".data
        (legacyRequestURL { enableProof := some (.bool true), clientSecret := some "123" }
          "accessToken").data :=
  ⟨rfl, by decide⟩

/-- Claim C3 as amended: in the ESM variant, with `enableProof` the profile
request URL is the configured `profileURL` with a `sig` parameter whose
value is the lowercase hex HMAC-SHA256, keyed by the client secret, of
`/users/self|access_token=` followed by the access token — identical inputs
give an identical `sig` because the construction is a pure function of
`(clientSecret, accessToken)` — and with `enableProof` off the URL is the
bare `profileURL`, which at its default value contains no `sig` substring.
The legacy variant ignores `enableProof` entirely: its request URL is the
stored profile URL, depends only on `options.profileURL` (not on
`enableProof`, `clientSecret` or the access token), and equals the
`sig`-free default URL whenever `profileURL` was not supplied. -/
theorem C3_proof_signature_url (profileURL clientSecret accessToken : String) :
    igRequestURL true profileURL clientSecret accessToken
      = profileURL ++ "?sig="
          ++ bytesToHex (hmacSha256 (utf8Bytes clientSecret)
              (utf8Bytes ("/users/self|access_token=" ++ accessToken)))
    ∧ igRequestURL false profileURL clientSecret accessToken = profileURL
    ∧ ¬ List.IsInfix "sig=".data defaultProfileURL.data
    ∧ (∀ (o o' : JsOptions) (tok tok' : String), o.profileURL = o'.profileURL →
        legacyRequestURL o tok = legacyRequestURL o' tok')
    ∧ (∀ (o : JsOptions) (tok : String), o.profileURL = none →
        legacyRequestURL o tok = defaultProfileURL) := by
  refine ⟨?_, rfl, by decide, ?_, ?_⟩
  · show profileURL ++ "?sig="
        ++ encodeURIComponent (bytesToHex (hmacSha256 (utf8Bytes clientSecret)
            (utf8Bytes ("/users/self|access_token=" ++ accessToken)))) = _
    rw [encodeURIComponent_bytesToHex]
  · intro o o' tok tok' h
    simp [legacyRequestURL, h]
  · intro o tok h
    simp [legacyRequestURL, h, strOrDefault, strTruthy]

/-- Witness for the amended C3: the legacy URL is the same for
`enableProof: true` and for empty options, and is the default URL. -/
theorem C3_witness :
    legacyRequestURL { enableProof := some (.bool true), clientSecret := some "123" }
        "accessToken"
      = legacyRequestURL {} "other-token"
    ∧ legacyRequestURL {} "other-token" = defaultProfileURL :=
  ⟨(C3_proof_signature_url defaultProfileURL "123" "accessToken").2.2.2.1
      { enableProof := some (.bool true), clientSecret := some "123" } {}
      "accessToken" "other-token" rfl,
   (C3_proof_signature_url defaultProfileURL "123" "accessToken").2.2.2.2 {}
      "other-token" rfl⟩

/-- Claim C4: the completion callback `verified` maps a non-null error to the
error outcome carrying it, a null error with falsy user to the fail outcome
carrying `info` unchanged, and a null error with truthy user to the success
outcome carrying user and info unchanged; the produced value is exactly one
of the three outcomes (an `Outcome` is a single constructor). -/
theorem C4_verified_dispatch (r : VerifyResult) :
    (∀ e, r.error = some e → verified r = .error e)
    ∧ (r.error = none → jsTruthy r.user = false → verified r = .fail (.value r.info))
    ∧ (r.error = none → ∀ u, r.user = some u → u.truthy = true →
        verified r = .success u r.info)
    ∧ ((∃ e, verified r = .error e) ∨ (∃ i, verified r = .fail i)
        ∨ ∃ u i, verified r = .success u i) := by
  obtain ⟨err, user, info⟩ := r
  refine ⟨?_, ?_, ?_, ?_⟩
  · rintro e rfl
    rfl
  · rintro rfl h
    cases user with
    | none => rfl
    | some u =>
        simp only [jsTruthy] at h
        simp [verified, h]
  · rintro rfl u rfl h
    simp [verified, h]
  · cases err with
    | some e => exact .inl ⟨e, rfl⟩
    | none =>
        cases user with
        | none => exact .inr (.inl ⟨_, rfl⟩)
        | some u =>
            by_cases h : u.truthy = true
            · exact .inr (.inr ⟨u, info, by simp [verified, h]⟩)
            · simp only [Bool.not_eq_true] at h
              exact .inr (.inl ⟨.value info, by simp [verified, h]⟩)

/-- Witness for C4 at a concrete invocation: null error, truthy user. -/
theorem C4_witness :
    verified { error := none, user := some (.str "u"), info := some (.str "i") }
      = .success (.str "u") (some (.str "i")) :=
  (C4_verified_dispatch _).2.2.1 rfl _ rfl (by decide)


theorem strOr_of_truthy {a : Option String} (b : Option String)
    (h : strTruthy a = true) : strOr a b = a := by
  simp [strOr, h]

theorem strOr_of_falsy {a : Option String} (b : Option String)
    (h : strTruthy a = false) : strOr a b = b := by
  simp [strOr, h]

/-- Claim C1: a request whose primary token field is absent or empty in
body, query and headers makes `authenticate` fail with
`You should provide <fieldName>` before any profile load: the outcome is
the same for every `loadUserProfile` and every `verify`, and the verify
callback never runs (second component `none`).  Covers the ESM strategy
(configured field name) and, when the configured name is the default
`access_token`, the legacy strategy (whose field name is fixed). -/
theorem C1_missing_token_fails (cfg : IgConfig) (req : Request)
    (hb : strTruthy (mapGet req.body cfg.accessTokenField) = false)
    (hq : strTruthy (mapGet req.query cfg.accessTokenField) = false)
    (hh : strTruthy (mapGet req.headers cfg.accessTokenField) = false) :
    (∀ load verify, igAuthenticate cfg req load verify
        = (.fail (.message ("You should provide " ++ cfg.accessTokenField)), none))
    ∧ (cfg.accessTokenField = "access_token" →
        ∀ (p : Bool) load verify, legacyAuthenticate p req load verify
          = (.fail (.message "You should provide access_token"), none)) := by
  constructor
  · intro load verify
    simp [igAuthenticate, strTruthy_strOr, hb, hq]
  · intro hf p load verify
    rw [hf] at hb hq hh
    simp [legacyAuthenticate, strTruthy_strOr, hb, hq, hh]

/-- Witness for C1: an entirely empty request against both variants. -/
theorem C1_witness :
    igAuthenticate {} {} (fun _ => .error .syntaxError) (fun _ => {})
        = (.fail (.message "You should provide access_token"), none)
      ∧ legacyAuthenticate false {} (fun _ => .error .syntaxError) (fun _ => {})
        = (.fail (.message "You should provide access_token"), none) :=
  ⟨(C1_missing_token_fails {} {} rfl rfl rfl).1 _ _,
   (C1_missing_token_fails {} {} rfl rfl rfl).2 rfl false _ _⟩

/-- Counterexample to claim C2: in the ESM strategy a token present (and
non-empty) in exactly one of body/query/headers — namely headers — is NOT
extracted: `authenticate` fails and the verify callback never runs, even
though the profile load and the verify callback would both succeed. -/
theorem C2_counterexample :
    igAuthenticate {} { headers := some [("access_token", "token-in-headers")] }
        (fun _ => .ok (igBuildProfile "" (.obj []) (.obj [])))
        (fun _ => { user := some (.str "user") })
      = (.fail (.message "You should provide access_token"), none) := by
  rfl

/-- Claim C2 as amended: the legacy strategy extracts the first truthy value
among body, query, headers (in that order) and hands it unchanged to the
verify callback; the ESM strategy consults only body then query (body value
taking precedence), and a token present only in headers is not extracted —
that request fails. -/
theorem C2_token_passthrough (f : String) (req : Request) (p : Bool)
    (load : Option String → Except JsError IgProfile)
    (verify : VerifyArgs IgProfile → VerifyResult)
    (prof : IgProfile) (tok : String) (htok : tok ≠ "") :
    (mapGet req.body f = some tok →
      load (some tok) = .ok prof →
      (igAuthenticate { accessTokenField := f } req load verify).2.map
          (fun a => a.accessToken) = some (some tok))
    ∧ (strTruthy (mapGet req.body f) = false →
        mapGet req.query f = some tok →
        load (some tok) = .ok prof →
        (igAuthenticate { accessTokenField := f } req load verify).2.map
            (fun a => a.accessToken) = some (some tok))
    ∧ (strTruthy (mapGet req.body f) = false →
        strTruthy (mapGet req.query f) = false →
        igAuthenticate { accessTokenField := f } req load verify
          = (.fail (.message ("You should provide " ++ f)), none))
    ∧ (mapGet req.body "access_token" = some tok →
        load (some tok) = .ok prof →
        (legacyAuthenticate p req load verify).2.map
            (fun a => a.accessToken) = some (some tok))
    ∧ (strTruthy (mapGet req.body "access_token") = false →
        mapGet req.query "access_token" = some tok →
        load (some tok) = .ok prof →
        (legacyAuthenticate p req load verify).2.map
            (fun a => a.accessToken) = some (some tok))
    ∧ (strTruthy (mapGet req.body "access_token") = false →
        strTruthy (mapGet req.query "access_token") = false →
        mapGet req.headers "access_token" = some tok →
        load (some tok) = .ok prof →
        (legacyAuthenticate p req load verify).2.map
            (fun a => a.accessToken) = some (some tok)) := by
  have htokT : strTruthy (some tok) = true := by simp [strTruthy, htok]
  refine ⟨?_, ?_, ?_, ?_, ?_, ?_⟩
  · intro hbody hload
    rw [igAuthenticate, hbody, strOr_of_truthy _ htokT]
    simp [htokT, hload]
  · intro hbody hquery hload
    rw [igAuthenticate, strOr_of_falsy _ hbody, hquery]
    simp [htokT, hload]
  · intro hbody hquery
    simp [igAuthenticate, strTruthy_strOr, hbody, hquery]
  · intro hbody hload
    rw [legacyAuthenticate, hbody, strOr_of_truthy _ htokT, strOr_of_truthy _ htokT]
    simp [htokT, hload]
  · intro hbody hquery hload
    rw [legacyAuthenticate, strOr_of_falsy _ hbody, hquery, strOr_of_truthy _ htokT]
    simp [htokT, hload]
  · intro hbody hquery hheaders hload
    rw [legacyAuthenticate, strOr_of_falsy _ hbody, strOr_of_falsy _ hquery, hheaders]
    simp [htokT, hload]

/-- Witness for C2's amended statement: a token carried in the query only,
extracted and passed through by both variants. -/
theorem C2_witness :
    (igAuthenticate { accessTokenField := "access_token" }
        { query := some [("access_token", "tok")] }
        (fun _ => .ok (igBuildProfile "" (.obj []) (.obj [])))
        (fun _ => {})).2.map (fun a => a.accessToken) = some (some "tok") :=
  ((C2_token_passthrough "access_token" { query := some [("access_token", "tok")] }
      false (fun _ => .ok (igBuildProfile "" (.obj []) (.obj []))) (fun _ => {})
      (igBuildProfile "" (.obj []) (.obj [])) "tok" (by decide)).2.1)
    rfl rfl rfl

/-- The success branch of `userProfile` reaches the profile literal whenever the
body parses and its `data` member is neither `undefined` nor `null`. -/
theorem igHandleBody_eq_ok (jsonParse : String → Option Json) (body : String)
    (json data : Json) (hparse : jsonParse body = some json)
    (hdata : json.get "data" = some data) (hnn : data ≠ .null) :
    igHandleBody jsonParse body = .ok (igBuildProfile body json data) := by
  unfold igHandleBody
  rw [hparse]
  simp only [hdata]

/-- Claim C5: a well-formed payload with `data.id`, `data.username`,
`data.first_name`, `data.last_name`, `data.profile_picture` normalizes to
provider `instagram`, `id = data.id`, `username = data.username`, empty
`emails`, a single photo holding `data.profile_picture`,
`name` from last/first name, the raw body retained in `_raw` and the parsed
(and id-mutated) structure in `_json`; a body that does not parse as JSON
propagates the parse error and yields no profile. -/
theorem C5_profile_normalization
    (jsonParse : String → Option Json) (body : String) (json data : Json)
    (idv un fn ln pic : Json)
    (hparse : jsonParse body = some json)
    (hdata : json.get "data" = some data)
    (hid : data.get "id" = some idv)
    (hun : data.get "username" = some un)
    (hfn : data.get "first_name" = some fn) (hfnT : fn.truthy = true)
    (hln : data.get "last_name" = some ln) (hlnT : ln.truthy = true)
    (hpic : data.get "profile_picture" = some pic) :
    (∃ prof, igHandleBody jsonParse body = .ok prof
      ∧ prof.provider = "instagram"
      ∧ prof.id = some idv
      ∧ prof.username = some un
      ∧ prof.emails = []
      ∧ prof.photos = [{ value := some pic }]
      ∧ prof.name.familyName = ln
      ∧ prof.name.givenName = fn
      ∧ prof.rawBody = body
      ∧ prof.parsedJson = json.setField "id" idv)
    ∧ ∀ b, jsonParse b = none → igHandleBody jsonParse b = .error .syntaxError := by
  have hnn : data ≠ .null := by
    intro h
    subst h
    simp [Json.get] at hid
  constructor
  · refine ⟨igBuildProfile body json data,
      igHandleBody_eq_ok jsonParse body json data hparse hdata hnn, ?_⟩
    simp [igBuildProfile, hid, hun, hfn, hln, hpic, jsonOrDefault, jsTruthy, hfnT, hlnT]
  · intro b hb
    unfold igHandleBody
    rw [hb]

/-- Witness for C5: the fixture profile of the repository's test suite. -/
theorem C5_witness :
    ∃ prof,
      igHandleBody
          (fun _ => some (Json.obj [("data", Json.obj
            [("id", .str "1234567"), ("username", .str "ghaiklor"),
             ("first_name", .str "Eugene"), ("last_name", .str "Obrezkov"),
             ("profile_picture", .str "http://distillery.s3.amazonaws.com/profiles/profile_1574083_75sq_1295469061.jpg")])]))
          "RAW_BODY"
        = .ok prof
      ∧ prof.id = some (.str "1234567")
      ∧ prof.name.familyName = .str "Obrezkov" := by
  obtain ⟨⟨prof, hok, _, hidv, _, _, _, hfam, _⟩, _⟩ :=
    C5_profile_normalization
      (fun _ => some (Json.obj [("data", Json.obj
        [("id", .str "1234567"), ("username", .str "ghaiklor"),
         ("first_name", .str "Eugene"), ("last_name", .str "Obrezkov"),
         ("profile_picture", .str "http://distillery.s3.amazonaws.com/profiles/profile_1574083_75sq_1295469061.jpg")])]))
      "RAW_BODY" _ _ _ _ _ _ _
      rfl rfl rfl rfl rfl (by decide) rfl (by decide) rfl
  exact ⟨prof, hok, hidv, hfam⟩


/-- Claim C6: whenever the `jwt.verify` collaborator reports a failure
(bad signature, audience/issuer mismatch, wrong algorithm, expiry — all
opaque to this adapter) for the extracted identity token under the
audience/issuer/algorithm options this adapter builds, `authenticate` ends
in the error outcome wrapping that failure in
`InternalOAuthError('Failed to validate identity token', err)`, and the
application verify callback is never invoked: the result is the same for
every `verify`, and no invocation is recorded. -/
theorem C6_jwt_verification_failure (cfg : AppleConfig) (req : Request)
    (jsonParse : String → Option Json) (stringify : Json → String)
    (jwtVerify : Option String → VerifyOpts → Except JwtError Json) (e : JwtError)
    (hpresent : strTruthy (strOr (mapGet req.body cfg.identityTokenField)
        (mapGet req.query cfg.identityTokenField)) = true)
    (hfail : jwtVerify (strOr (mapGet req.body cfg.identityTokenField)
        (mapGet req.query cfg.identityTokenField)) (appleVerifyOpts cfg) = .error e) :
    ∀ verify, appleAuthenticate cfg req jsonParse stringify jwtVerify verify
      = (.error (.oauthJwtFailed "Failed to validate identity token" e), none) := by
  intro verify
  simp [appleAuthenticate, appleAuthenticateCore, appleUserProfile, hpresent, hfail]

/-- Witness for C6: an audience mismatch on a concrete request. -/
theorem C6_witness :
    appleAuthenticate { clientID := "123" } { body := some [("id_token", "tok")] }
        (fun _ => none) (fun _ => "") (fun _ _ => .error .audienceMismatch) (fun _ => {})
      = (.error (.oauthJwtFailed "Failed to validate identity token" .audienceMismatch),
         none) :=
  C6_jwt_verification_failure { clientID := "123" } { body := some [("id_token", "tok")] }
    (fun _ => none) (fun _ => "") (fun _ _ => .error .audienceMismatch) .audienceMismatch
    rfl rfl _

theorem jsEqStrTrue_iff (v : Option Json) :
    jsEqStrTrue v = true ↔ v = some (.str "true") := by
  cases v with
  | none => simp [jsEqStrTrue]
  | some j =>
      cases j <;> simp [jsEqStrTrue]

/-- Claim C7: the Apple profile takes `id` from the `sub` claim, a single
email entry from the `email` claim, `emailVerified` true exactly when the
`email_verified` claim is the literal string `"true"` (a boolean claim is
not coerced), likewise `isPrivateEmail` for `is_private_email`; the `name`
field is attached only when the user-supplied `lastName` or `firstName` is
present, and omitted entirely otherwise. -/
theorem C7_apple_claims_normalization (stringify : Json → String)
    (jwtClaims : Json) (user : UserData) :
    (appleBuildProfile stringify jwtClaims user).id = jwtClaims.get "sub"
    ∧ (appleBuildProfile stringify jwtClaims user).emails
        = [{ value := jwtClaims.get "email" }]
    ∧ ((appleBuildProfile stringify jwtClaims user).emailVerified = true
        ↔ jwtClaims.get "email_verified" = some (.str "true"))
    ∧ ((appleBuildProfile stringify jwtClaims user).isPrivateEmail = true
        ↔ jwtClaims.get "is_private_email" = some (.str "true"))
    ∧ (jwtClaims.get "email_verified" = some (.bool true) →
        (appleBuildProfile stringify jwtClaims user).emailVerified = false)
    ∧ (user.getProp "lastName" = none → user.getProp "firstName" = none →
        (appleBuildProfile stringify jwtClaims user).name = none)
    ∧ (∀ n, (appleBuildProfile stringify jwtClaims user).name = some n →
        (user.getProp "lastName").isSome = true ∨ (user.getProp "firstName").isSome = true) := by
  refine ⟨?_, ?_, ?_, ?_, ?_, ?_, ?_⟩
  · by_cases hcond : (user.isTruthy
        && (jsTruthy (user.getProp "lastName") || jsTruthy (user.getProp "firstName"))) = true <;>
      simp [appleBuildProfile, hcond]
  · by_cases hcond : (user.isTruthy
        && (jsTruthy (user.getProp "lastName") || jsTruthy (user.getProp "firstName"))) = true <;>
      simp [appleBuildProfile, hcond]
  · by_cases hcond : (user.isTruthy
        && (jsTruthy (user.getProp "lastName") || jsTruthy (user.getProp "firstName"))) = true <;>
      simp [appleBuildProfile, hcond, jsEqStrTrue_iff]
  · by_cases hcond : (user.isTruthy
        && (jsTruthy (user.getProp "lastName") || jsTruthy (user.getProp "firstName"))) = true <;>
      simp [appleBuildProfile, hcond, jsEqStrTrue_iff]
  · intro h
    by_cases hcond : (user.isTruthy
        && (jsTruthy (user.getProp "lastName") || jsTruthy (user.getProp "firstName"))) = true <;>
      simp [appleBuildProfile, hcond, h, jsEqStrTrue]
  · intro hl hf
    simp [appleBuildProfile, hl, hf, jsTruthy]
  · intro n hn
    by_cases hcond : (user.isTruthy
        && (jsTruthy (user.getProp "lastName") || jsTruthy (user.getProp "firstName"))) = true
    · rcases (Bool.and_eq_true _ _).mp hcond with ⟨-, hor⟩
      rcases (Bool.or_eq_true _ _).mp hor with h | h
      · left
        cases hx : user.getProp "lastName" with
        | none => rw [hx] at h; simp [jsTruthy] at h
        | some _ => simp
      · right
        cases hx : user.getProp "firstName" with
        | none => rw [hx] at h; simp [jsTruthy] at h
        | some _ => simp
    · simp [appleBuildProfile, hcond] at hn

/-- Witness for C7: concrete verified claims with a string-typed
`email_verified` and no user-supplied name. -/
theorem C7_witness :
    (appleBuildProfile (fun _ => "")
        (.obj [("sub", .str "000857.deadbeef"), ("email", .str "user@example.com"),
               ("email_verified", .str "true")]) .absent).emailVerified = true
      ∧ (appleBuildProfile (fun _ => "")
          (.obj [("sub", .str "000857.deadbeef"), ("email", .str "user@example.com"),
                 ("email_verified", .str "true")]) .absent).name = none := by
  have h := C7_apple_claims_normalization (fun _ => "")
    (.obj [("sub", .str "000857.deadbeef"), ("email", .str "user@example.com"),
           ("email_verified", .str "true")]) .absent
  exact ⟨h.2.2.1.mpr rfl, h.2.2.2.2.2.1 rfl rfl⟩

/-- Claim C8: when the optional `user` fragment arrives as a string that is
not valid JSON, the parse failure is swallowed: the extracted user value
stays the raw string, the profile built from it is the very profile built
with no user data at all (in particular it carries no `name` field), and
the entire `authenticate` run is identical to a run with the user fragment
treated as absent — the fragment alone never produces an error or fail
outcome. -/
theorem C8_malformed_user_fragment (cfg : AppleConfig) (req : Request)
    (jsonParse : String → Option Json) (stringify : Json → String)
    (jwtVerify : Option String → VerifyOpts → Except JwtError Json)
    (verify : VerifyArgs AppleProfile → VerifyResult) (s : String)
    (hu : strOr (mapGet req.body "user") (mapGet req.query "user") = some s)
    (hbad : jsonParse s = none) :
    appleUserData jsonParse req = .rawStr s
    ∧ (∀ claims, appleBuildProfile stringify claims (.rawStr s)
        = appleBuildProfile stringify claims .absent)
    ∧ appleAuthenticate cfg req jsonParse stringify jwtVerify verify
        = appleAuthenticateCore cfg req stringify jwtVerify verify
            (strOr (mapGet req.body cfg.identityTokenField)
              (mapGet req.query cfg.identityTokenField)) .absent
    ∧ (∀ args, (appleAuthenticate cfg req jsonParse stringify jwtVerify verify).2
          = some args → args.profile.name = none) := by
  have hdata : appleUserData jsonParse req = .rawStr s := by
    unfold appleUserData
    rw [hu]
    simp only [hbad]
  have hbuild : ∀ claims, appleBuildProfile stringify claims (.rawStr s)
      = appleBuildProfile stringify claims .absent := by
    intro claims
    simp [appleBuildProfile, UserData.getProp, UserData.isTruthy, jsTruthy]
  have hcore : appleAuthenticate cfg req jsonParse stringify jwtVerify verify
      = appleAuthenticateCore cfg req stringify jwtVerify verify
          (strOr (mapGet req.body cfg.identityTokenField)
            (mapGet req.query cfg.identityTokenField)) .absent := by
    unfold appleAuthenticate
    rw [hdata]
    unfold appleAuthenticateCore appleUserProfile
    simp only [hbuild]
  refine ⟨hdata, hbuild, hcore, ?_⟩
  intro args hargs
  rw [hcore] at hargs
  unfold appleAuthenticateCore appleUserProfile at hargs
  by_cases hp : strTruthy (strOr (mapGet req.body cfg.identityTokenField)
      (mapGet req.query cfg.identityTokenField)) = false
  · rw [if_pos hp] at hargs
    exact Option.noConfusion hargs
  · rw [if_neg hp] at hargs
    cases hjv : jwtVerify (strOr (mapGet req.body cfg.identityTokenField)
        (mapGet req.query cfg.identityTokenField)) (appleVerifyOpts cfg) with
    | error e =>
        rw [hjv] at hargs
        exact Option.noConfusion hargs
    | ok claims =>
        rw [hjv] at hargs
        have h2 : some { req := if cfg.passReqToCallback = true then some req else none,
                         accessToken := (none : Option String),
                         refreshToken := (none : Option String),
                         profile := appleBuildProfile stringify claims .absent }
            = some args := hargs
        injection h2 with h3
        rw [← h3]
        simp [appleBuildProfile, UserData.isTruthy]

/-- Witness for C8: a concrete request carrying a non-JSON `user` string. -/
theorem C8_witness :
    appleAuthenticate { clientID := "c" }
        { body := some [("id_token", "t"), ("user", "not json")] }
        (fun _ => none) (fun _ => "") (fun _ _ => .error .expired) (fun _ => {})
      = appleAuthenticateCore { clientID := "c" }
          { body := some [("id_token", "t"), ("user", "not json")] }
          (fun _ => "") (fun _ _ => .error .expired) (fun _ => {})
          (some "t") .absent :=
  (C8_malformed_user_fragment { clientID := "c" }
    { body := some [("id_token", "t"), ("user", "not json")] }
    (fun _ => none) (fun _ => "") (fun _ _ => .error .expired) (fun _ => {})
    "not json" rfl rfl).2.2.1


/-- Counterexample to claim C9: a well-parsed payload whose `data` object
carries only `id` produces a profile whose `username` and
`photos[0].value` are `undefined` (`none`) — absent optional fields do NOT
all take an empty-string/empty-list default. -/
theorem C9_counterexample :
    igHandleBody (fun _ => some (.obj [("data", .obj [("id", .str "1")])])) "B"
      = .ok { provider := "instagram"
              id := some (.str "1")
              username := none
              displayName := .str ""
              name := { familyName := .str "", givenName := .str "" }
              emails := []
              photos := [{ value := none }]
              rawBody := "B"
              parsedJson := .obj [("data", .obj [("id", .str "1")]), ("id", .str "1")] } := by
  rfl

/-- Claim C9 as amended: `id` is taken from `data.id` (OAuth2) and the `sub`
claim (OIDC); `displayName` and the two name components default to the
empty string when the corresponding field is absent or falsy, and `emails`
is always the empty list (OAuth2); but `username`, `photos[0].value` and
the OIDC email value mirror the payload directly and are `undefined` when
the field is absent. -/
theorem C9_defaults (jsonParse : String → Option Json) (body : String)
    (json data : Json) (hparse : jsonParse body = some json)
    (hdata : json.get "data" = some data) (hnn : data ≠ .null)
    (stringify : Json → String) (claims : Json) (user : UserData) :
    (∃ p, igHandleBody jsonParse body = .ok p
      ∧ p.provider = "instagram"
      ∧ p.id = data.get "id"
      ∧ p.username = data.get "username"
      ∧ p.emails = []
      ∧ p.photos = [{ value := data.get "profile_picture" }]
      ∧ (jsTruthy (data.get "full_name") = false → p.displayName = .str "")
      ∧ (jsTruthy (data.get "last_name") = false → p.name.familyName = .str "")
      ∧ (jsTruthy (data.get "first_name") = false → p.name.givenName = .str ""))
    ∧ (appleBuildProfile stringify claims user).id = claims.get "sub"
    ∧ (appleBuildProfile stringify claims user).emails
        = [{ value := claims.get "email" }] := by
  refine ⟨⟨igBuildProfile body json data,
    igHandleBody_eq_ok jsonParse body json data hparse hdata hnn,
    rfl, rfl, rfl, rfl, rfl, ?_, ?_, ?_⟩, ?_, ?_⟩
  · intro h
    simp [igBuildProfile, jsonOrDefault, h]
  · intro h
    simp [igBuildProfile, jsonOrDefault, h]
  · intro h
    simp [igBuildProfile, jsonOrDefault, h]
  · by_cases hcond : (user.isTruthy
        && (jsTruthy (user.getProp "lastName") || jsTruthy (user.getProp "firstName"))) = true <;>
      simp [appleBuildProfile, hcond]
  · by_cases hcond : (user.isTruthy
        && (jsTruthy (user.getProp "lastName") || jsTruthy (user.getProp "firstName"))) = true <;>
      simp [appleBuildProfile, hcond]

/-- Witness for the amended C9 at the counterexample's own payload. -/
theorem C9_witness :
    ∃ p, igHandleBody (fun _ => some (.obj [("data", .obj [("id", .str "1")])])) "B"
        = .ok p
      ∧ p.username = none ∧ p.name.familyName = .str "" := by
  obtain ⟨⟨p, hok, _, _, hun, _, _, _, hfam, _⟩, _⟩ :=
    C9_defaults (fun _ => some (.obj [("data", .obj [("id", .str "1")])])) "B"
      (.obj [("data", .obj [("id", .str "1")])]) (.obj [("id", .str "1")])
      rfl rfl (by intro h; cases h) (fun _ => "") (.obj []) .absent
  exact ⟨p, hok, hun, hfam rfl⟩

/-- Claim C10: constructing a strategy writes provider defaults into the
missing `authorizationURL` / `tokenURL` fields of the caller's options
object (the legacy variant also `profileURL`), in place; a field already
set stays as supplied, and every other field of the caller's object is left
unchanged (the ESM variant leaves `profileURL` untouched as well). -/
theorem C10_constructor_mutates_options (o : JsOptions) :
    (o.authorizationURL = none →
      (igApplyDefaults o).authorizationURL
          = some "https://api.instagram.com/oauth/authorize/"
        ∧ (legacyApplyDefaults o).authorizationURL
          = some "https://api.instagram.com/oauth/authorize/")
    ∧ (o.tokenURL = none →
        (igApplyDefaults o).tokenURL = some "https://api.instagram.com/oauth/access_token"
        ∧ (legacyApplyDefaults o).tokenURL
          = some "https://api.instagram.com/oauth/access_token")
    ∧ (o.profileURL = none →
        (igApplyDefaults o).profileURL = none
        ∧ (legacyApplyDefaults o).profileURL = some defaultProfileURL)
    ∧ (∀ u, o.authorizationURL = some u → u ≠ "" →
        (igApplyDefaults o).authorizationURL = some u
        ∧ (legacyApplyDefaults o).authorizationURL = some u)
    ∧ (igApplyDefaults o).profileURL = o.profileURL
    ∧ (igApplyDefaults o).clientID = o.clientID
    ∧ (igApplyDefaults o).clientSecret = o.clientSecret
    ∧ (igApplyDefaults o).accessTokenField = o.accessTokenField
    ∧ (igApplyDefaults o).refreshTokenField = o.refreshTokenField
    ∧ (igApplyDefaults o).identityTokenField = o.identityTokenField
    ∧ (igApplyDefaults o).enableProof = o.enableProof
    ∧ (igApplyDefaults o).passReqToCallback = o.passReqToCallback
    ∧ (igApplyDefaults o).others = o.others
    ∧ (legacyApplyDefaults o).clientID = o.clientID
    ∧ (legacyApplyDefaults o).clientSecret = o.clientSecret
    ∧ (legacyApplyDefaults o).accessTokenField = o.accessTokenField
    ∧ (legacyApplyDefaults o).refreshTokenField = o.refreshTokenField
    ∧ (legacyApplyDefaults o).identityTokenField = o.identityTokenField
    ∧ (legacyApplyDefaults o).enableProof = o.enableProof
    ∧ (legacyApplyDefaults o).passReqToCallback = o.passReqToCallback
    ∧ (legacyApplyDefaults o).others = o.others := by
  refine ⟨?_, ?_, ?_, ?_, rfl, rfl, rfl, rfl, rfl, rfl, rfl, rfl, rfl,
    rfl, rfl, rfl, rfl, rfl, rfl, rfl, rfl⟩
  · intro h
    constructor <;> simp [igApplyDefaults, legacyApplyDefaults, strOrDefault, strTruthy, h]
  · intro h
    constructor <;> simp [igApplyDefaults, legacyApplyDefaults, strOrDefault, strTruthy, h]
  · intro h
    constructor <;> simp [igApplyDefaults, legacyApplyDefaults, strOrDefault, strTruthy, h]
  · intro u h hu
    constructor <;>
      simp [igApplyDefaults, legacyApplyDefaults, strOrDefault, strTruthy, h, hu]

/-- Witness for C10: an options object lacking every URL. -/
theorem C10_witness :
    (igApplyDefaults {}).authorizationURL
        = some "https://api.instagram.com/oauth/authorize/"
      ∧ (legacyApplyDefaults {}).profileURL = some defaultProfileURL
      ∧ (igApplyDefaults { clientID := some "123" }).clientID = some "123" :=
  ⟨((C10_constructor_mutates_options {}).1 rfl).1,
   ((C10_constructor_mutates_options {}).2.2.1 rfl).2,
   (C10_constructor_mutates_options { clientID := some "123" }).2.2.2.2.2.1⟩

end PIT
